import Mathlib

/-!
Verification of the twitch-bot WebSocket relay core.

This file shallowly embeds the message-dispatch and broadcast core of the
repository: the JSON envelope model and builder functions
(shared-types), the `MessageHandlerRegistry` dispatch algorithm
(`handlers/MessageHandler.ts`), the concrete handlers
(`HelloHandler`, `PingHandler`, `ToggleStreamHandler`, `TwitchHandler`,
`TwitchAuthHandler` — the latter two only through their dispatch
predicates, since their bodies are glue over external services), the
connection loop of the server entry point, `WebSocketManager.broadcast`,
and the `TwitchManager` connection state machine.

JavaScript runtime values are modelled by the inductive type `Js`;
a synchronous throw is an `Except.error`; the value an `async` function
produces (a promise) is distinguished from a plain synchronous return by
the type `Async`, because `MessageHandlerRegistry.processRawMessage` is a
synchronous function whose try/catch sees only synchronous throws, while
a rejected promise returned by an async handler flows through it
untouched and only surfaces at the `await` in the connection loop.
-/

/-- A JavaScript runtime value as relevant to this codebase.  JSON.parse
produces values without the `date` constructor; `date iso` models a JS
`Date` object whose `toISOString()`/`toJSON()` is `iso`. -/
inductive Js where
  | null : Js
  | bool (b : Bool) : Js
  | num (n : Int) : Js
  | str (s : String) : Js
  | date (iso : String) : Js
  | arr (elems : List Js) : Js
  | obj (fields : List (String × Js)) : Js

/-- A value thrown by JavaScript code: a `TypeError` (e.g. reading a
property of `null`) or an `Error` with a message. -/
inductive JsErr where
  | typeError (msg : String) : JsErr
  | error (msg : String) : JsErr
deriving DecidableEq

/-- First-match lookup of an object field (JS object property lookup;
object literals in this codebase have distinct keys). -/
def lookupField : List (String × Js) → String → Option Js
  | [], _ => none
  | (k, v) :: rest, key => if k = key then some v else lookupField rest key

/-- JS property access `v.key`: throws a TypeError on `null`, yields the
field on an object, and `undefined` (modelled as `none`) on any other
value (primitives auto-box and have no such own property). -/
def getProp : Js → String → Except JsErr (Option Js)
  | .null, key => .error (.typeError ("Cannot read properties of null (reading '" ++ key ++ "')"))
  | .obj fields, key => .ok (lookupField fields key)
  | _, _ => .ok none

/-- `message.eventType === t`: the strict-equality test used by every
handler's `canHandle` and by the type guards in shared-types.  Throws
only when the property access itself throws (message is `null`). -/
def evIs (message : Js) (t : String) : Except JsErr Bool := do
  let ev ← getProp message "eventType"
  pure (match ev with
    | some (.str s) => decide (s = t)
    | _ => false)

/-- An optional object field: present when the builder was given a value,
omitted when it was given `undefined` (JSON.stringify drops
`undefined`-valued properties, so at the JSON level the field is absent). -/
def optField (key : String) (v : Option Js) : List (String × Js) :=
  match v with
  | none => []
  | some x => [(key, x)]

mutual

/-- `JSON.stringify`'s value normalization: a `Date` is replaced by the
string its `toJSON`/`toISOString` returns; arrays and objects are
normalized recursively; every other value is already a JSON value. -/
def Js.toJson : Js → Js
  | .null => .null
  | .bool b => .bool b
  | .num n => .num n
  | .str s => .str s
  | .date iso => .str iso
  | .arr elems => .arr (toJsonList elems)
  | .obj fields => .obj (toJsonFields fields)

def toJsonList : List Js → List Js
  | [] => []
  | x :: xs => x.toJson :: toJsonList xs

def toJsonFields : List (String × Js) → List (String × Js)
  | [] => []
  | (k, v) :: rest => (k, v.toJson) :: toJsonFields rest

end

mutual

/-- A value is JSON-safe when it contains no `Date`: exactly the values
on which `JSON.stringify`'s normalization is the identity. -/
def Js.jsonSafe : Js → Bool
  | .null => true
  | .bool _ => true
  | .num _ => true
  | .str _ => true
  | .date _ => false
  | .arr elems => jsonSafeList elems
  | .obj fields => jsonSafeFields fields

def jsonSafeList : List Js → Bool
  | [] => true
  | x :: xs => x.jsonSafe && jsonSafeList xs

def jsonSafeFields : List (String × Js) → Bool
  | [] => true
  | (_, v) :: rest => v.jsonSafe && jsonSafeFields rest

end

/-- Escape one character the way `JSON.stringify` escapes string
characters (quote, backslash and the common control characters). -/
def jsonEscapeChar (c : Char) : String :=
  if c = '"' then "\\\""
  else if c = '\\' then "\\\\"
  else if c = '\n' then "\\n"
  else if c = '\r' then "\\r"
  else if c = '\t' then "\\t"
  else String.singleton c

/-- Escape a whole string for inclusion in JSON output. -/
def jsonEscape (s : String) : String :=
  String.join (s.toList.map jsonEscapeChar)

mutual

/-- `JSON.stringify` on an already-normalized (Date-free) value.  The
registry and the broadcast loop serialize a message exactly once with
this function before sending it. -/
def Js.stringify : Js → String
  | .null => "null"
  | .bool b => if b then "true" else "false"
  | .num n => toString n
  | .str s => "\"" ++ jsonEscape s ++ "\""
  | .date iso => "\"" ++ jsonEscape iso ++ "\""
  | .arr elems => "[" ++ stringifyList elems ++ "]"
  | .obj fields => "\x7b" ++ stringifyFields fields ++ "\x7d"

def stringifyList : List Js → String
  | [] => ""
  | [x] => x.stringify
  | x :: y :: xs => x.stringify ++ "," ++ stringifyList (y :: xs)

def stringifyFields : List (String × Js) → String
  | [] => ""
  | [(k, v)] => "\"" ++ jsonEscape k ++ "\":" ++ v.stringify
  | (k, v) :: f :: fs =>
      "\"" ++ jsonEscape k ++ "\":" ++ v.stringify ++ "," ++ stringifyFields (f :: fs)

end

/- ===== shared-types message builders =====
Each builder mirrors the corresponding `create*` function of the
shared-types package.  `new Date().toISOString()` at the moment of
construction is modelled by the parameter `now`, the ISO-8601 string of
the construction instant.  Optional TypeScript parameters left
`undefined` produce properties that `JSON.stringify` omits, so they are
modelled by `optField`, which omits the key. -/

/-- `createHelloRequest(userMessage)`. -/
def createHelloRequest (now userMessage : String) : Js :=
  .obj [("eventType", .str "hello"),
        ("eventBody", .obj [("userMessage", .str userMessage),
                            ("timestamp", .str now)])]

/-- `createPingRequest(userMessage)`. -/
def createPingRequest (now userMessage : String) : Js :=
  .obj [("eventType", .str "ping"),
        ("eventBody", .obj [("userMessage", .str userMessage),
                            ("timestamp", .str now)])]

/-- `createHelloResponse(message)`. -/
def createHelloResponse (now message : String) : Js :=
  .obj [("eventType", .str "hello-response"),
        ("eventBody", .obj [("message", .str message),
                            ("timestamp", .str now)])]

/-- `createPongResponse(message, originalBody)`.  The `originalBody`
argument is the request's `eventBody`, embedded as-is; `PingHandler`
passes `message.eventBody`, which at runtime can be any value (it is
`undefined`, hence an omitted property, when the request had no
`eventBody`). -/
def createPongResponse (now message : String) (originalBody : Option Js) : Js :=
  .obj [("eventType", .str "pong-response"),
        ("eventBody", .obj (("message", .str message) ::
          optField "originalBody" originalBody ++
          [("timestamp", .str now)]))]

/-- `createErrorResponse(message, eventType?, originalMessage?)`.  The
two optional arguments become omitted properties when `undefined`; the
registry passes the raw message's (possibly non-string) `eventType`
value for the unknown-type error, so that argument is a `Js` value. -/
def createErrorResponse (now message : String)
    (eventTypeArg originalMessageArg : Option Js) : Js :=
  .obj [("eventType", .str "error"),
        ("eventBody", .obj (("message", .str message) ::
          optField "eventType" eventTypeArg ++
          optField "originalMessage" originalMessageArg ++
          [("timestamp", .str now)]))]

/-- `createObsStateResponse(streaming)`. -/
def createObsStateResponse (now : String) (streaming : Bool) : Js :=
  .obj [("eventType", .str "obs-state"),
        ("eventBody", .obj [("streaming", .bool streaming),
                            ("timestamp", .str now)])]

/-- `createToggleStreamRequest()`. -/
def createToggleStreamRequest (now : String) : Js :=
  .obj [("eventType", .str "toggle-stream"),
        ("eventBody", .obj [("timestamp", .str now)])]

/-- `createTwitchRequest(action, params?)`: the optional params spread
into the body before the timestamp. -/
def createTwitchRequest (now action : String)
    (enabled : Option Bool) (username reason message : Option String) : Js :=
  .obj [("eventType", .str "twitch"),
        ("eventBody", .obj (("action", .str action) ::
          optField "enabled" (enabled.map .bool) ++
          optField "username" (username.map .str) ++
          optField "reason" (reason.map .str) ++
          optField "message" (message.map .str) ++
          [("timestamp", .str now)]))]

/-- `createTwitchConnectResponse(success, connected, message?, error?)`. -/
def createTwitchConnectResponse (now : String) (success connected : Bool)
    (message errMsg : Option String) : Js :=
  .obj [("eventType", .str "twitch-connect-response"),
        ("eventBody", .obj (("success", .bool success) ::
          ("connected", .bool connected) ::
          optField "message" (message.map .str) ++
          optField "error" (errMsg.map .str) ++
          [("timestamp", .str now)]))]

/-- `createTwitchDisconnectResponse(success, connected, message?, error?)`. -/
def createTwitchDisconnectResponse (now : String) (success connected : Bool)
    (message errMsg : Option String) : Js :=
  .obj [("eventType", .str "twitch-disconnect-response"),
        ("eventBody", .obj (("success", .bool success) ::
          ("connected", .bool connected) ::
          optField "message" (message.map .str) ++
          optField "error" (errMsg.map .str) ++
          [("timestamp", .str now)]))]

/-- `createTwitchToggleChatResponse(success, chatEnabled, message?, error?)`. -/
def createTwitchToggleChatResponse (now : String) (success chatEnabled : Bool)
    (message errMsg : Option String) : Js :=
  .obj [("eventType", .str "twitch-toggle-chat-response"),
        ("eventBody", .obj (("success", .bool success) ::
          ("chatEnabled", .bool chatEnabled) ::
          optField "message" (message.map .str) ++
          optField "error" (errMsg.map .str) ++
          [("timestamp", .str now)]))]

/-- `createTwitchAuthRequest(action, params?)`. -/
def createTwitchAuthRequest (now action : String)
    (code channel : Option String) : Js :=
  .obj [("eventType", .str "twitch_auth"),
        ("eventBody", .obj (("action", .str action) ::
          optField "code" (code.map .str) ++
          optField "channel" (channel.map .str) ++
          [("timestamp", .str now)]))]

/-- `createTwitchAuthResponse(success, message?, error?, data?)`. -/
def createTwitchAuthResponse (now : String) (success : Bool)
    (message errMsg : Option String) (data : Option Js) : Js :=
  .obj [("eventType", .str "twitch_auth-response"),
        ("eventBody", .obj (("success", .bool success) ::
          optField "message" (message.map .str) ++
          optField "error" (errMsg.map .str) ++
          optField "data" data ++
          [("timestamp", .str now)]))]

/-- `createTwitchAuthStateResponse(authState)`. -/
def createTwitchAuthStateResponse (now : String) (authState : Js) : Js :=
  .obj [("eventType", .str "twitch_auth_state"),
        ("eventBody", .obj [("authState", authState),
                            ("timestamp", .str now)])]

/- ===== dispatch core ===== -/

/-- What a handler's `handle` call evaluates to when it does not throw
synchronously: a plain value (`PingHandler`, whose `handle` is not
`async`), or a promise that fulfills, or a promise that rejects (an
`async` handler whose body threw).  `await` of a plain value yields the
value itself. -/
inductive Async where
  | sync (v : Js) : Async
  | resolved (v : Js) : Async
  | rejected (e : JsErr) : Async

/-- The body of an `async` function evaluated to completion: it never
throws synchronously; a throw inside the body becomes a rejected
promise, a return a fulfilled one. -/
def asyncBody (body : Except JsErr Js) : Except JsErr Async :=
  .ok (match body with
    | .ok v => .resolved v
    | .error e => .rejected e)

/-- The `MessageHandler` interface: `canHandle` and `handle` run as
synchronous calls (either may throw, hence `Except`), and `handle`'s
normal result is an `Async` value. -/
structure Handler where
  canHandle : Js → Except JsErr Bool
  handle : Js → Except JsErr Async
  getEventType : String

/-- The scan of `MessageHandlerRegistry.processMessage`'s `for` loop:
the first handler whose `canHandle` returns true, or `none` when every
`canHandle` returns false; a throwing `canHandle` propagates. -/
def findHandler : List Handler → Js → Except JsErr (Option Handler)
  | [], _ => .ok none
  | h :: rest, message => do
      let b ← h.canHandle message
      if b then pure (some h) else findHandler rest message

/-- `MessageHandlerRegistry.processMessage(message, ws)`: logs
`message.eventType` (a property access that throws on `null`), invokes
the first matching handler, and otherwise builds the unknown-event-type
error envelope carrying `message.eventType`. -/
def processMessage (now : String) (handlers : List Handler) (message : Js) :
    Except JsErr Async := do
  let ev ← getProp message "eventType"
  match ← findHandler handlers message with
  | some h => h.handle message
  | none => pure (.sync (createErrorResponse now "Unknown event type" ev none))

/-- The indices of the handlers whose `handle` is invoked during one
`processMessage` call: the loop returns at the first `canHandle` hit, so
at most one index, and none once a `canHandle` throws. -/
def dispatchInvocations : List Handler → Js → List Nat
  | [], _ => []
  | h :: rest, message =>
      match h.canHandle message with
      | .error _ => []
      | .ok true => [0]
      | .ok false => (dispatchInvocations rest message).map (· + 1)

/-- `MessageHandlerRegistry.processRawMessage(rawMessage, ws)`: parse the
raw text and dispatch inside one try/catch; any synchronous throw
(JSON.parse failure, a throwing property access or `canHandle`, or a
non-async handler throwing) is converted to the Invalid-JSON error
envelope carrying the raw text.  `parsed` is the outcome of
`JSON.parse(rawMessage)`: `none` when it throws, otherwise the parsed
value.  The function is not `async` and does not await, so a rejected
promise returned by a matched handler passes through uncaught. -/
def processRawMessage (now : String) (handlers : List Handler)
    (rawMessage : String) (parsed : Option Js) : Async :=
  match parsed with
  | none => .sync (createErrorResponse now "Invalid JSON format" none (some (.str rawMessage)))
  | some message =>
      match processMessage now handlers message with
      | .ok a => a
      | .error _ => .sync (createErrorResponse now "Invalid JSON format" none (some (.str rawMessage)))

/-- `await` on the value `processRawMessage` returned, as performed by
the `ws.on('message')` callback: a plain value or fulfilled promise
yields the single response envelope that is then sent; a rejected
promise makes the await throw, the async callback rejects, and no
response is sent. -/
def awaitAsync : Async → Except JsErr Js
  | .sync v => .ok v
  | .resolved v => .ok v
  | .rejected e => .error e

/-- The connection loop's handling of one inbound frame (entry point,
`ws.on('message')`): dispatch through the registry, await, and send the
resulting envelope.  `.ok v` is the one outbound envelope; `.error e`
means the rejection escaped the dispatch boundary and no frame was
sent. -/
def connectionDispatch (now : String) (handlers : List Handler)
    (rawMessage : String) (parsed : Option Js) : Except JsErr Js :=
  awaitAsync (processRawMessage now handlers rawMessage parsed)

/- ===== concrete handlers ===== -/

/-- `HelloHandler`: `canHandle` is `isHelloRequest`; `handle` is async,
throws (rejecting its promise) on a non-hello message and otherwise
returns `createHelloResponse('world')`. -/
def helloHandler (now : String) : Handler where
  canHandle := fun m => evIs m "hello"
  handle := fun m => asyncBody (do
    let b ← evIs m "hello"
    if b then
      pure (createHelloResponse now "world")
    else
      throw (.error "HelloHandler received non-hello message"))
  getEventType := "hello"

/-- `PingHandler`: `canHandle` is `isPingRequest`; `handle` is NOT
async — it returns a plain value and a throw inside it is a synchronous
throw seen by the registry's try/catch. -/
def pingHandler (now : String) : Handler where
  canHandle := fun m => evIs m "ping"
  handle := fun m => do
    let b ← evIs m "ping"
    if b then do
      let body ← getProp m "eventBody"
      pure (.sync (createPongResponse now "pong" body))
    else
      throw (.error "PingHandler received non-ping message")
  getEventType := "ping"

/-- The OBS service as `ToggleStreamHandler` observes it: the cached
flags and the outcomes of the two awaited calls the handler makes
(`connect()` and `toggleStreaming()`, each of which may reject). -/
structure OBSModel where
  isEnabled : Bool
  isConnected : Bool
  connectResult : Except JsErr Unit
  toggleResult : Except JsErr Bool

/-- `ToggleStreamHandler`: async `handle` that returns the disabled
state when OBS integration is off, otherwise ensures a connection
(awaiting `connect()` when not connected) and awaits
`toggleStreaming()`; a rejection of either awaited call rejects the
handler's promise. -/
def toggleStreamHandler (now : String) (obs : OBSModel) : Handler where
  canHandle := fun m => evIs m "toggle-stream"
  handle := fun m => asyncBody (do
    let b ← evIs m "toggle-stream"
    if !b then
      throw (.error "ToggleStreamHandler received incompatible message")
    else if !obs.isEnabled then
      pure (createObsStateResponse now false)
    else do
      if !obs.isConnected then
        let _ ← obs.connectResult
      let newState ← obs.toggleResult
      pure (createObsStateResponse now newState))
  getEventType := "toggle-stream"

/-- `TwitchHandler`: `canHandle` compares `message.eventType` with
`'twitch'`; the async body (a switch over external-service actions,
declared out of scope by the spec) is abstracted by `body`. -/
def twitchHandler (body : Js → Except JsErr Js) : Handler where
  canHandle := fun m => evIs m "twitch"
  handle := fun m => asyncBody (body m)
  getEventType := "twitch"

/-- `TwitchAuthHandler`: `canHandle` compares `message.eventType` with
`'twitch_auth'`; the async body (OAuth glue, out of scope) is abstracted
by `body`. -/
def twitchAuthHandler (body : Js → Except JsErr Js) : Handler where
  canHandle := fun m => evIs m "twitch_auth"
  handle := fun m => asyncBody (body m)
  getEventType := "twitch_auth"

/-- The registration sequence of the server entry point:
HelloHandler, PingHandler, ToggleStreamHandler, TwitchHandler,
TwitchAuthHandler, in this order. -/
def registeredHandlers (now : String) (obs : OBSModel)
    (twitchBody authBody : Js → Except JsErr Js) : List Handler :=
  [helloHandler now, pingHandler now, toggleStreamHandler now obs,
   twitchHandler twitchBody, twitchAuthHandler authBody]

/- ===== WebSocketManager ===== -/

/-- One live connection as `WebSocketManager.broadcast` observes it:
its identity, whether `ws.readyState === WebSocket.OPEN`, and whether
`ws.send` throws for it during this broadcast. -/
structure Conn where
  id : Nat
  isOpen : Bool
  sendThrows : Bool
deriving DecidableEq

/-- The loop body of `WebSocketManager.broadcast`, iterating the live
set in insertion order with the one-time serialization `payload`.
For each connection: if open, attempt `ws.send(payload)` — on a throw
the connection is removed (`removeConnection` inside the catch);
if not open, the connection is removed as dead.  Returns the live set
after the call, the send attempts made, and the successful deliveries,
each as (connection id, payload) in iteration order. -/
def broadcastLoop (payload : String) :
    List Conn → List Conn × List (Nat × String) × List (Nat × String)
  | [] => ([], [], [])
  | c :: rest =>
      let (survivors, attempts, delivered) := broadcastLoop payload rest
      if c.isOpen then
        if c.sendThrows then
          (survivors, (c.id, payload) :: attempts, delivered)
        else
          (c :: survivors, (c.id, payload) :: attempts, (c.id, payload) :: delivered)
      else
        (survivors, attempts, delivered)

/-- `WebSocketManager.broadcast(message)`: serialize once
(`JSON.stringify(message)`), then run the loop over the live set. -/
def broadcast (message : Js) (connections : List Conn) :
    List Conn × List (Nat × String) × List (Nat × String) :=
  broadcastLoop (message.toJson.stringify) connections

/-- `WebSocketManager.getConnectionCount()`: the size of the live set. -/
def getConnectionCount (connections : List Conn) : Nat :=
  connections.length

/- ===== TwitchManager ===== -/

/-- The mutable state of `TwitchManager` that `disconnect` touches: the
connection and chat flags and the six event callbacks (callbacks are
tracked by an opaque identifier, `none` meaning `null`). -/
structure TwitchMgr where
  isConnected : Bool
  isChatEnabled : Bool
  chatCallback : Option Nat
  subscriptionCallback : Option Nat
  bitsCallback : Option Nat
  followCallback : Option Nat
  raidCallback : Option Nat
  hostCallback : Option Nat
  targetChannel : String
deriving DecidableEq

/-- `TwitchManager.disconnect()`: returns immediately when not
connected; otherwise awaits `client.disconnect()` inside a try — when
that call throws (`clientThrows`), the catch only logs and none of the
state resets run; when it succeeds, the connection and chat flags are
cleared and all six callbacks are set to `null`. -/
def twitchDisconnect (clientThrows : Bool) (s : TwitchMgr) : TwitchMgr :=
  if !s.isConnected then s
  else if clientThrows then s
  else
    { s with isConnected := false, isChatEnabled := false,
             chatCallback := none, subscriptionCallback := none,
             bitsCallback := none, followCallback := none,
             raidCallback := none, hostCallback := none }

/-- The guard of `TwitchManager`'s tmi `message` event handler: a chat
message reaches the chat callback only when chat is enabled and the
callback is set (`if (!this._isChatEnabled || !this.chatCallback)
return`). -/
def chatCallbackFires (s : TwitchMgr) : Bool :=
  s.isChatEnabled && s.chatCallback.isSome

/- ===== registry handler-list aliasing (getRegisteredHandlers) ===== -/

/-- A heap of JS arrays, indexed by reference; used to state that
`getRegisteredHandlers` returns a fresh copy rather than an alias of the
registry's internal `handlers` array. -/
structure ArrayHeap (α : Type) where
  arrays : List (List α)

/-- Dereference an array. -/
def readArray {α : Type} (h : ArrayHeap α) (r : Nat) : List α :=
  (h.arrays.get? r).getD []

/-- In-place mutation of the array behind a reference (the client
mutating the returned array: push, splice, reorder — any replacement of
its contents). -/
def writeArray {α : Type} (h : ArrayHeap α) (r : Nat) (contents : List α) :
    ArrayHeap α :=
  ⟨h.arrays.set r contents⟩

/-- `getRegisteredHandlers()`: `return [...this.handlers]` — allocates a
fresh array whose contents are copied from the registry's array and
returns the fresh reference. -/
def getRegisteredHandlers {α : Type} (h : ArrayHeap α) (registry : Nat) :
    ArrayHeap α × Nat :=
  (⟨h.arrays ++ [readArray h registry]⟩, h.arrays.length)

/- ===== the chat-toggle out-of-band event path ===== -/

/-- The `ChatMessage` object built by `TwitchManager`'s tmi `message`
handler: `timestamp: new Date()` is a `Date` stamped at construction
(`now` is its ISO string), and `userState` is the raw tags object. -/
def chatMessageObj (now id username displayName text : String)
    (userState : Js) : Js :=
  .obj [("id", .str id),
        ("username", .str username),
        ("displayName", .str displayName),
        ("message", .str text),
        ("timestamp", .date now),
        ("userState", userState)]

/-- The envelope the chat-toggle callback in
`TwitchHandler.handleToggleChat` builds around a `ChatMessage` and
sends: `{type: 'twitch_chat_message', data: message}`. -/
def chatToggleEvent (message : Js) : Js :=
  .obj [("type", .str "twitch_chat_message"),
        ("data", message)]

/-- What the chat-toggle callback puts on the wire for one chat
message: `JSON.stringify` of the event, whose normalization turns the
`Date` timestamp into its ISO-8601 string. -/
def chatToggleWireValue (now id username displayName text : String)
    (userState : Js) : Js :=
  (chatToggleEvent (chatMessageObj now id username displayName text userState)).toJson

/- ===== typed envelopes and deserialization (round-trip model) ===== -/

/-- A constructible envelope: one constructor per `create*` builder of
the shared-types package, carrying the builder's arguments plus the
construction timestamp. -/
inductive Envelope where
  | helloReq (userMessage ts : String) : Envelope
  | pingReq (userMessage ts : String) : Envelope
  | helloResp (message ts : String) : Envelope
  | pongResp (message : String) (originalBody : Js) (ts : String) : Envelope
  | errorResp (message : String) (evType origMsg : Option String) (ts : String) : Envelope
  | obsState (streaming : Bool) (ts : String) : Envelope
  | toggleStreamReq (ts : String) : Envelope
  | twitchReq (action : String) (enabled : Option Bool)
      (username reason message : Option String) (ts : String) : Envelope
  | twitchConnectResp (success connected : Bool)
      (message errMsg : Option String) (ts : String) : Envelope
  | twitchDisconnectResp (success connected : Bool)
      (message errMsg : Option String) (ts : String) : Envelope
  | twitchToggleChatResp (success chatEnabled : Bool)
      (message errMsg : Option String) (ts : String) : Envelope
  | twitchAuthReq (action : String) (code channel : Option String) (ts : String) : Envelope
  | twitchAuthResp (success : Bool) (message errMsg : Option String)
      (data : Option Js) (ts : String) : Envelope
  | twitchAuthState (authState : Js) (ts : String) : Envelope

/-- Serialize an envelope through its builder: the JS object the builder
constructs, of which `JSON.stringify` emits the normalization. -/
def Envelope.toJs : Envelope → Js
  | .helloReq u ts => createHelloRequest ts u
  | .pingReq u ts => createPingRequest ts u
  | .helloResp m ts => createHelloResponse ts m
  | .pongResp m ob ts => createPongResponse ts m (some ob)
  | .errorResp m ev om ts => createErrorResponse ts m (ev.map .str) (om.map .str)
  | .obsState s ts => createObsStateResponse ts s
  | .toggleStreamReq ts => createToggleStreamRequest ts
  | .twitchReq a en un re me ts => createTwitchRequest ts a en un re me
  | .twitchConnectResp s c m e ts => createTwitchConnectResponse ts s c m e
  | .twitchDisconnectResp s c m e ts => createTwitchDisconnectResponse ts s c m e
  | .twitchToggleChatResp s c m e ts => createTwitchToggleChatResponse ts s c m e
  | .twitchAuthReq a co ch ts => createTwitchAuthRequest ts a co ch
  | .twitchAuthResp s m e d ts => createTwitchAuthResponse ts s m e d
  | .twitchAuthState a ts => createTwitchAuthStateResponse ts a

/-- Read a required string field of a body object. -/
def strField (bs : List (String × Js)) (k : String) : Option String :=
  match lookupField bs k with
  | some (.str s) => some s
  | _ => none

/-- Read a required boolean field of a body object. -/
def boolField (bs : List (String × Js)) (k : String) : Option Bool :=
  match lookupField bs k with
  | some (.bool b) => some b
  | _ => none

/-- Read an optional string field: an absent key deserializes to the
absent argument, a string to the present one; any other value is not
the serialization of a constructible envelope. -/
def optStrField (bs : List (String × Js)) (k : String) : Option (Option String) :=
  match lookupField bs k with
  | none => some none
  | some (.str s) => some (some s)
  | some _ => none

/-- Read an optional boolean field. -/
def optBoolField (bs : List (String × Js)) (k : String) : Option (Option Bool) :=
  match lookupField bs k with
  | none => some none
  | some (.bool b) => some (some b)
  | some _ => none

/-- Deserialize the body of an envelope given its `eventType` tag. -/
def parseBody (t : String) (bs : List (String × Js)) : Option Envelope :=
  match t with
  | "hello" => do
      let u ← strField bs "userMessage"
      let ts ← strField bs "timestamp"
      pure (.helloReq u ts)
  | "ping" => do
      let u ← strField bs "userMessage"
      let ts ← strField bs "timestamp"
      pure (.pingReq u ts)
  | "hello-response" => do
      let m ← strField bs "message"
      let ts ← strField bs "timestamp"
      pure (.helloResp m ts)
  | "pong-response" => do
      let m ← strField bs "message"
      let ob ← lookupField bs "originalBody"
      let ts ← strField bs "timestamp"
      pure (.pongResp m ob ts)
  | "error" => do
      let m ← strField bs "message"
      let ev ← optStrField bs "eventType"
      let om ← optStrField bs "originalMessage"
      let ts ← strField bs "timestamp"
      pure (.errorResp m ev om ts)
  | "obs-state" => do
      let s ← boolField bs "streaming"
      let ts ← strField bs "timestamp"
      pure (.obsState s ts)
  | "toggle-stream" => do
      let ts ← strField bs "timestamp"
      pure (.toggleStreamReq ts)
  | "twitch" => do
      let a ← strField bs "action"
      let en ← optBoolField bs "enabled"
      let un ← optStrField bs "username"
      let re ← optStrField bs "reason"
      let me ← optStrField bs "message"
      let ts ← strField bs "timestamp"
      pure (.twitchReq a en un re me ts)
  | "twitch-connect-response" => do
      let s ← boolField bs "success"
      let c ← boolField bs "connected"
      let m ← optStrField bs "message"
      let e ← optStrField bs "error"
      let ts ← strField bs "timestamp"
      pure (.twitchConnectResp s c m e ts)
  | "twitch-disconnect-response" => do
      let s ← boolField bs "success"
      let c ← boolField bs "connected"
      let m ← optStrField bs "message"
      let e ← optStrField bs "error"
      let ts ← strField bs "timestamp"
      pure (.twitchDisconnectResp s c m e ts)
  | "twitch-toggle-chat-response" => do
      let s ← boolField bs "success"
      let c ← boolField bs "chatEnabled"
      let m ← optStrField bs "message"
      let e ← optStrField bs "error"
      let ts ← strField bs "timestamp"
      pure (.twitchToggleChatResp s c m e ts)
  | "twitch_auth" => do
      let a ← strField bs "action"
      let co ← optStrField bs "code"
      let ch ← optStrField bs "channel"
      let ts ← strField bs "timestamp"
      pure (.twitchAuthReq a co ch ts)
  | "twitch_auth-response" => do
      let s ← boolField bs "success"
      let m ← optStrField bs "message"
      let e ← optStrField bs "error"
      let d := lookupField bs "data"
      let ts ← strField bs "timestamp"
      pure (.twitchAuthResp s m e d ts)
  | "twitch_auth_state" => do
      let a ← lookupField bs "authState"
      let ts ← strField bs "timestamp"
      pure (.twitchAuthState a ts)
  | _ => none

/-- Deserialize a JSON value into a typed envelope: it must be an
object with a string `eventType` and an object `eventBody` whose shape
matches the tag. -/
def parseEnvelope (e : Js) : Option Envelope :=
  match e with
  | .obj fs =>
      match lookupField fs "eventType", lookupField fs "eventBody" with
      | some (.str t), some (.obj bs) => parseBody t bs
      | _, _ => none
  | _ => none

/-- Pure accessor: the field `k` of the `eventBody` of a response or
request object (for stating timestamp properties of built envelopes). -/
def bodyProp (e : Js) (k : String) : Option Js :=
  match e with
  | .obj fs =>
      match lookupField fs "eventBody" with
      | some (.obj bs) => lookupField bs k
      | _ => none
  | _ => none

/-- Pure accessor: the field `k` of the `data` of a server-pushed event
object (`{type, data}` wire shape). -/
def dataProp (e : Js) (k : String) : Option Js :=
  match e with
  | .obj fs =>
      match lookupField fs "data" with
      | some (.obj bs) => lookupField bs k
      | _ => none
  | _ => none

mutual

/-- Normalization is the identity on Date-free values. -/
theorem Js.toJson_eq_self : ∀ (v : Js), v.jsonSafe = true → v.toJson = v
  | .null, _ => rfl
  | .bool _, _ => rfl
  | .num _, _ => rfl
  | .str _, _ => rfl
  | .date _, h => by simp [Js.jsonSafe] at h
  | .arr xs, h => by
      simp only [Js.toJson]
      rw [toJsonList_eq_self xs (by simpa [Js.jsonSafe] using h)]
  | .obj fs, h => by
      simp only [Js.toJson]
      rw [toJsonFields_eq_self fs (by simpa [Js.jsonSafe] using h)]

theorem toJsonList_eq_self : ∀ (xs : List Js), jsonSafeList xs = true → toJsonList xs = xs
  | [], _ => rfl
  | x :: xs, h => by
      simp only [jsonSafeList, Bool.and_eq_true] at h
      simp only [toJsonList]
      rw [Js.toJson_eq_self x h.1, toJsonList_eq_self xs h.2]

theorem toJsonFields_eq_self :
    ∀ (fs : List (String × Js)), jsonSafeFields fs = true → toJsonFields fs = fs
  | [], _ => rfl
  | (k, v) :: fs, h => by
      simp only [jsonSafeFields, Bool.and_eq_true] at h
      simp only [toJsonFields]
      rw [Js.toJson_eq_self v h.1, toJsonFields_eq_self fs h.2]

end

/- ===== concrete fixtures used by theorem witnesses ===== -/

/-- A trivial abstract async-handler body (never consulted by the
dispatches in the theorems that use it). -/
def trivialBody : Js → Except JsErr Js := fun _ => .ok .null

/-- The OBS service when integration is enabled but OBS is unreachable:
not connected, and `connect()` rejects. -/
def obsUnreachable : OBSModel :=
  ⟨true, false, .error (.error "ECONNREFUSED"), .ok true⟩

/-- A concrete ISO-8601 construction instant. -/
def sampleNow : String := "2024-01-01T00:00:00.000Z"

/-- A well-formed toggle-stream request frame (raw text and its
JSON.parse result). -/
def toggleRaw : String := "\x7b\"eventType\":\"toggle-stream\",\"eventBody\":\x7b\x7d\x7d"

/-- `JSON.parse(toggleRaw)`. -/
def toggleParsed : Js :=
  .obj [("eventType", .str "toggle-stream"), ("eventBody", .obj [])]

/- ===== C1 ===== -/

/-- C1: the claim says dispatch never lets a handler failure escape the
dispatch boundary — the registry should return an error envelope when
the matched handler's `handle` raises.  The code violates this: for a
well-formed `toggle-stream` frame when OBS is enabled, not connected and
`obs.connect()` rejects, the async handler's rejected promise passes
through the registry's try/catch (which only sees synchronous throws,
because `processRawMessage` neither is async nor awaits), the `await` in
the `ws.on('message')` callback rejects, and no outbound envelope is
produced — the rejection escapes the dispatch boundary. -/
theorem c1_async_rejection_escapes_dispatch :
    connectionDispatch sampleNow
      (registeredHandlers sampleNow obsUnreachable trivialBody trivialBody)
      toggleRaw (some toggleParsed) =
    .error (.error "ECONNREFUSED") := rfl

/- ===== C2 ===== -/

/-- C2 counterexample: the raw text `{"foo":1}` parses as JSON but has
neither `eventType` nor `eventBody`; the claim says dispatch must return
the `Invalid JSON format` envelope carrying the raw text, but the code
performs no shape validation after `JSON.parse` — the message falls
through every `canHandle` and dispatch returns the `Unknown event type`
envelope (with no `originalMessage`) instead. -/
theorem c2_wrong_shape_not_reported_as_invalid_json :
    processRawMessage sampleNow
      (registeredHandlers sampleNow obsUnreachable trivialBody trivialBody)
      "\x7b\"foo\":1\x7d" (some (.obj [("foo", .num 1)])) =
      .sync (createErrorResponse sampleNow "Unknown event type" none none) ∧
    createErrorResponse sampleNow "Unknown event type" none none ≠
      createErrorResponse sampleNow "Invalid JSON format" none
        (some (.str "\x7b\"foo\":1\x7d")) := by
  refine ⟨rfl, ?_⟩
  simp [createErrorResponse, optField]

/-- `message.eventType === t` evaluates to false whenever the property
access succeeds with a value other than the string `t`. -/
theorem evIs_false_of_ne (msg : Js) (ev : Option Js) (t : String)
    (h1 : getProp msg "eventType" = .ok ev) (h2 : ev ≠ some (.str t)) :
    evIs msg t = .ok false := by
  unfold evIs
  rw [h1]
  cases ev with
  | none => rfl
  | some v =>
      cases v <;> simp_all [Except.bind]

/-- C2 (amended): only raw text whose `JSON.parse` throws — malformed
syntax, or the JSON value `null`, whose `eventType` property access then
throws inside the same try — yields
`{eventType:"error", eventBody:{message:"Invalid JSON format",
originalMessage: <raw text>}}`; raw text that parses to any other JSON
value is dispatched on its `eventType` alone, and when that value
matches none of the registered handlers the result is the
`Unknown event type` error envelope (carrying the message's `eventType`
value, not the raw text). -/
theorem c2_parse_errors_vs_unknown_type :
    (∀ (now raw : String) (hs : List Handler),
       processRawMessage now hs raw none =
         .sync (createErrorResponse now "Invalid JSON format" none (some (.str raw)))) ∧
    (∀ (now raw : String) (hs : List Handler),
       processRawMessage now hs raw (some .null) =
         .sync (createErrorResponse now "Invalid JSON format" none (some (.str raw)))) ∧
    (∀ (now raw : String) (obs : OBSModel) (tb ab : Js → Except JsErr Js)
       (msg : Js) (ev : Option Js),
       getProp msg "eventType" = .ok ev →
       (∀ t ∈ (["hello", "ping", "toggle-stream", "twitch", "twitch_auth"] : List String),
          ev ≠ some (.str t)) →
       processRawMessage now (registeredHandlers now obs tb ab) raw (some msg) =
         .sync (createErrorResponse now "Unknown event type" ev none)) := by
  refine ⟨fun now raw hs => rfl, fun now raw hs => rfl, ?_⟩
  intro now raw obs tb ab msg ev h1 h2
  have e1 : evIs msg "hello" = .ok false :=
    evIs_false_of_ne msg ev "hello" h1 (h2 "hello" (by simp))
  have e2 : evIs msg "ping" = .ok false :=
    evIs_false_of_ne msg ev "ping" h1 (h2 "ping" (by simp))
  have e3 : evIs msg "toggle-stream" = .ok false :=
    evIs_false_of_ne msg ev "toggle-stream" h1 (h2 "toggle-stream" (by simp))
  have e4 : evIs msg "twitch" = .ok false :=
    evIs_false_of_ne msg ev "twitch" h1 (h2 "twitch" (by simp))
  have e5 : evIs msg "twitch_auth" = .ok false :=
    evIs_false_of_ne msg ev "twitch_auth" h1 (h2 "twitch_auth" (by simp))
  simp [processRawMessage, processMessage, registeredHandlers, findHandler,
        helloHandler, pingHandler, toggleStreamHandler, twitchHandler,
        twitchAuthHandler, h1, e1, e2, e3, e4, e5,
        Bind.bind, Except.bind, pure, Except.pure]

/-- Witness for C2's amended theorem: the object `{"foo":1}` has no
`eventType`, and its dispatch through the registered handlers returns
the `Unknown event type` envelope. -/
theorem c2_parse_errors_vs_unknown_type_witness :
    getProp (.obj [("foo", .num 1)]) "eventType" = .ok none ∧
    processRawMessage sampleNow
      (registeredHandlers sampleNow obsUnreachable trivialBody trivialBody)
      "\x7b\"foo\":1\x7d" (some (.obj [("foo", .num 1)])) =
      .sync (createErrorResponse sampleNow "Unknown event type" none none) :=
  ⟨rfl, c2_parse_errors_vs_unknown_type.2.2 sampleNow "\x7b\"foo\":1\x7d"
    obsUnreachable trivialBody trivialBody (.obj [("foo", .num 1)]) none rfl
    (by intro t ht; simp)⟩

/- ===== C3 ===== -/

/-- The broadcast loop characterized in closed form: the surviving set
is the open-and-send-succeeded sublist in order, every open connection
receives exactly one send attempt of the one-time payload, and exactly
the open connections whose send did not throw receive a delivery. -/
theorem broadcastLoop_spec (payload : String) (conns : List Conn) :
    broadcastLoop payload conns =
      (conns.filter (fun c => c.isOpen && !c.sendThrows),
       (conns.filter (fun c => c.isOpen)).map (fun c => (c.id, payload)),
       (conns.filter (fun c => c.isOpen && !c.sendThrows)).map (fun c => (c.id, payload))) := by
  induction conns with
  | nil => rfl
  | cons c rest ih =>
      cases hc1 : c.isOpen <;> cases hc2 : c.sendThrows <;>
        simp [broadcastLoop, ih, List.filter_cons, hc1, hc2]

/-- C3: one `broadcast(E)` call serializes `E` once and attempts exactly
one send of that serialization to each connection whose transport is
open (so a failing send on one connection cannot affect the sends to the
others, which still each receive their one copy); every connection that
was not open, or whose send threw, is removed from the live set; the
surviving set is exactly the open connections whose send succeeded, and
`getConnectionCount()` afterwards equals their number. -/
theorem c3_broadcast_isolates_failures_and_prunes (message : Js) (conns : List Conn) :
    (broadcast message conns).2.1 =
      (conns.filter (fun c => c.isOpen)).map
        (fun c => (c.id, message.toJson.stringify)) ∧
    (broadcast message conns).2.2 =
      (conns.filter (fun c => c.isOpen && !c.sendThrows)).map
        (fun c => (c.id, message.toJson.stringify)) ∧
    (broadcast message conns).1 = conns.filter (fun c => c.isOpen && !c.sendThrows) ∧
    getConnectionCount (broadcast message conns).1 =
      (conns.filter (fun c => c.isOpen && !c.sendThrows)).length := by
  unfold broadcast getConnectionCount
  rw [broadcastLoop_spec]
  exact ⟨rfl, rfl, rfl, rfl⟩

/- ===== C4 ===== -/

/-- The registry's scan returns the first handler whose `canHandle`
holds, skipping any prefix of non-matching handlers. -/
theorem findHandler_first_match (message : Js) (pre post : List Handler) (h : Handler)
    (hpre : ∀ h' ∈ pre, h'.canHandle message = .ok false)
    (hmatch : h.canHandle message = .ok true) :
    findHandler (pre ++ h :: post) message = .ok (some h) := by
  induction pre with
  | nil =>
      simp [findHandler, hmatch, Bind.bind, Except.bind, pure, Except.pure]
  | cons p rest ih =>
      have hp : p.canHandle message = .ok false := hpre p (by simp)
      have hrest : ∀ h' ∈ rest, h'.canHandle message = .ok false :=
        fun h' hh => hpre h' (by simp [hh])
      simp [findHandler, hp, ih hrest, Bind.bind, Except.bind]

/-- During one dispatch, the handler invoked is exactly the one at the
first matching position. -/
theorem dispatchInvocations_first_match (message : Js) (pre post : List Handler)
    (h : Handler)
    (hpre : ∀ h' ∈ pre, h'.canHandle message = .ok false)
    (hmatch : h.canHandle message = .ok true) :
    dispatchInvocations (pre ++ h :: post) message = [pre.length] := by
  induction pre with
  | nil => simp [dispatchInvocations, hmatch]
  | cons p rest ih =>
      have hp : p.canHandle message = .ok false := hpre p (by simp)
      have hrest : ∀ h' ∈ rest, h'.canHandle message = .ok false :=
        fun h' hh => hpre h' (by simp [hh])
      simp [dispatchInvocations, hp, ih hrest]

/-- C4: for a registration sequence in which every handler before `h`
rejects the (successfully parsed, non-null) message and `h` accepts it,
`processMessage` returns exactly `h.handle message` — the first
registered matching handler wins, whatever matching handlers follow —
and the indices whose `handle` runs during the dispatch are exactly the
one index of `h`: one handler is invoked, and none twice.  Its
registration-order position alone decides the tie, and since
`processMessage` is a function of the registration list and the message,
the same handler wins on every dispatch of the same message. -/
theorem c4_first_registered_match_wins (now : String) (message : Js)
    (pre post : List Handler) (h : Handler)
    (hnull : message ≠ .null)
    (hpre : ∀ h' ∈ pre, h'.canHandle message = .ok false)
    (hmatch : h.canHandle message = .ok true) :
    processMessage now (pre ++ h :: post) message = h.handle message ∧
    dispatchInvocations (pre ++ h :: post) message = [pre.length] := by
  refine ⟨?_, dispatchInvocations_first_match message pre post h hpre hmatch⟩
  have hev : ∃ ev, getProp message "eventType" = .ok ev := by
    cases message <;> simp [getProp] at hnull ⊢
  obtain ⟨ev, hev⟩ := hev
  simp [processMessage, hev, findHandler_first_match message pre post h hpre hmatch,
        Bind.bind, Except.bind]

/-- Witness for C4: in the real registration order, a ping message is
rejected by `HelloHandler` and accepted by `PingHandler`, so
`PingHandler` (index 1) is the one handler invoked. -/
theorem c4_first_registered_match_wins_witness :
    createPingRequest sampleNow "hi" ≠ Js.null ∧
    (helloHandler sampleNow).canHandle (createPingRequest sampleNow "hi") = .ok false ∧
    (pingHandler sampleNow).canHandle (createPingRequest sampleNow "hi") = .ok true ∧
    processMessage sampleNow
      [helloHandler sampleNow, pingHandler sampleNow]
      (createPingRequest sampleNow "hi") =
      (pingHandler sampleNow).handle (createPingRequest sampleNow "hi") ∧
    dispatchInvocations [helloHandler sampleNow, pingHandler sampleNow]
      (createPingRequest sampleNow "hi") = [1] := by
  have hnull : createPingRequest sampleNow "hi" ≠ Js.null := by
    simp [createPingRequest]
  have hpre : ∀ h' ∈ [helloHandler sampleNow],
      h'.canHandle (createPingRequest sampleNow "hi") = .ok false := by
    intro h' hh
    rw [List.mem_singleton] at hh
    subst hh
    rfl
  have hmain := c4_first_registered_match_wins sampleNow
    (createPingRequest sampleNow "hi") [helloHandler sampleNow] []
    (pingHandler sampleNow) hnull hpre rfl
  exact ⟨hnull, hpre _ (by simp), rfl, hmain.1, hmain.2⟩

/- ===== C5 ===== -/

/-- Deserialization recovers every envelope built by a shared-types
builder, optional arguments present or absent. -/
theorem parseEnvelope_toJs (e : Envelope) : parseEnvelope (Envelope.toJs e) = some e := by
  cases e with
  | helloReq u ts => rfl
  | pingReq u ts => rfl
  | helloResp m ts => rfl
  | pongResp m ob ts => rfl
  | errorResp m ev om ts => cases ev <;> cases om <;> rfl
  | obsState s ts => rfl
  | toggleStreamReq ts => rfl
  | twitchReq a en un re me ts =>
      cases en <;> cases un <;> cases re <;> cases me <;> rfl
  | twitchConnectResp s c m e ts => cases m <;> cases e <;> rfl
  | twitchDisconnectResp s c m e ts => cases m <;> cases e <;> rfl
  | twitchToggleChatResp s c m e ts => cases m <;> cases e <;> rfl
  | twitchAuthReq a co ch ts => cases co <;> cases ch <;> rfl
  | twitchAuthResp s m e d ts => cases m <;> cases e <;> cases d <;> rfl
  | twitchAuthState a ts => rfl

/-- The auth state that `TwitchAuthService.exchangeCodeForToken` builds
and broadcasts through `createTwitchAuthStateResponse`: its `expiresAt`
is `new Date(Date.now() + expires_in * 1000)` — a `Date` object inside
the `any`-typed payload. -/
def authStateWithDate : Js :=
  .obj [("isAuthenticated", .bool true),
        ("username", .str "streamer"),
        ("accessToken", .str "tok"),
        ("channel", .str "streamer"),
        ("expiresAt", .date "2024-01-01T01:00:00.000Z")]

/-- The same auth state after `JSON.stringify` normalization: the
`expiresAt` `Date` has become its ISO-8601 string. -/
def authStateAfterWire : Js :=
  .obj [("isAuthenticated", .bool true),
        ("username", .str "streamer"),
        ("accessToken", .str "tok"),
        ("channel", .str "streamer"),
        ("expiresAt", .str "2024-01-01T01:00:00.000Z")]

/-- Whether the `authState` payload of a deserialized auth-state
envelope is Date-free (a discriminator separating the two envelopes of
the counterexample). -/
def authStatePayloadSafe : Option Envelope → Bool
  | some (.twitchAuthState a _) => a.jsonSafe
  | _ => true

/-- C5 counterexample: the claim quantifies over every constructible
envelope, but `createTwitchAuthStateResponse(authState: any)` admits —
and `TwitchAuthService.exchangeCodeForToken` actually constructs — a
payload embedding a `Date` (`expiresAt`).  `JSON.stringify` serializes
that `Date` as its ISO string, so deserializing the serialization
yields the envelope with the string in the `Date`'s place: the round
trip returns a different envelope, refuting `parse(serialize(e)) == e`
at this concrete input. -/
theorem c5_date_payload_breaks_roundtrip :
    parseEnvelope ((Envelope.toJs (.twitchAuthState authStateWithDate sampleNow)).toJson) =
      some (.twitchAuthState authStateAfterWire sampleNow) ∧
    parseEnvelope ((Envelope.toJs (.twitchAuthState authStateWithDate sampleNow)).toJson) ≠
      some (.twitchAuthState authStateWithDate sampleNow) := by
  refine ⟨rfl, ?_⟩
  intro h
  have hcomp : parseEnvelope
      ((Envelope.toJs (.twitchAuthState authStateWithDate sampleNow)).toJson) =
      some (.twitchAuthState authStateAfterWire sampleNow) := rfl
  rw [hcomp] at h
  exact Bool.noConfusion (show (true : Bool) = false from congrArg authStatePayloadSafe h)

/-- C5 (amended): deserializing the serialization yields the envelope
back unchanged — `parse(serialize(e)) == e` — for every constructible
envelope whose serialized object is Date-free, including error
envelopes whose optional `eventType` and `originalMessage` arguments
were absent and hence omitted from the wire object; the restriction is
forced by the counterexample: a payload embedding a `Date` (possible
through the `any`-typed `authState`/`data` arguments, and actual for
the broadcast auth state's `expiresAt`) comes back as its ISO-8601
string instead. -/
theorem c5_parse_serialize_roundtrip (e : Envelope)
    (hsafe : (Envelope.toJs e).jsonSafe = true) :
    parseEnvelope ((Envelope.toJs e).toJson) = some e := by
  rw [Js.toJson_eq_self _ hsafe]
  exact parseEnvelope_toJs e

/-- Witness for C5: a concrete pong response (and, inside the proof, an
error envelope with both optional arguments absent) round-trips. -/
theorem c5_parse_serialize_roundtrip_witness :
    (Envelope.toJs (.pongResp "pong"
      (.obj [("userMessage", .str "hi"), ("timestamp", .str "S")]) sampleNow)).jsonSafe = true ∧
    parseEnvelope ((Envelope.toJs (.pongResp "pong"
      (.obj [("userMessage", .str "hi"), ("timestamp", .str "S")]) sampleNow)).toJson) =
      some (.pongResp "pong"
        (.obj [("userMessage", .str "hi"), ("timestamp", .str "S")]) sampleNow) ∧
    parseEnvelope ((Envelope.toJs (.errorResp "Invalid JSON format" none
      (some "oops") sampleNow)).toJson) =
      some (.errorResp "Invalid JSON format" none (some "oops") sampleNow) :=
  ⟨rfl,
   c5_parse_serialize_roundtrip
     (.pongResp "pong" (.obj [("userMessage", .str "hi"), ("timestamp", .str "S")]) sampleNow) rfl,
   c5_parse_serialize_roundtrip
     (.errorResp "Invalid JSON format" none (some "oops") sampleNow) rfl⟩

/- ===== C6 ===== -/

/-- C6: every request and response body a shared-types builder
constructs carries a `timestamp` field equal to the ISO-8601 string of
the construction instant; and on the chat-toggle out-of-band path the
`twitch_chat_message` event's `data.timestamp`, a `Date` stamped when
the chat message object was constructed, reaches the wire as that same
ISO-8601 string (its `toJSON` under `JSON.stringify`). -/
theorem c6_every_body_stamped (now : String) :
    (∀ u, bodyProp (createHelloRequest now u) "timestamp" = some (.str now)) ∧
    (∀ u, bodyProp (createPingRequest now u) "timestamp" = some (.str now)) ∧
    (∀ m, bodyProp (createHelloResponse now m) "timestamp" = some (.str now)) ∧
    (∀ m ob, bodyProp (createPongResponse now m ob) "timestamp" = some (.str now)) ∧
    (∀ m ev om, bodyProp (createErrorResponse now m ev om) "timestamp" = some (.str now)) ∧
    (∀ s, bodyProp (createObsStateResponse now s) "timestamp" = some (.str now)) ∧
    (bodyProp (createToggleStreamRequest now) "timestamp" = some (.str now)) ∧
    (∀ a en un re me,
       bodyProp (createTwitchRequest now a en un re me) "timestamp" = some (.str now)) ∧
    (∀ s c m e,
       bodyProp (createTwitchConnectResponse now s c m e) "timestamp" = some (.str now)) ∧
    (∀ s c m e,
       bodyProp (createTwitchDisconnectResponse now s c m e) "timestamp" = some (.str now)) ∧
    (∀ s c m e,
       bodyProp (createTwitchToggleChatResponse now s c m e) "timestamp" = some (.str now)) ∧
    (∀ a co ch,
       bodyProp (createTwitchAuthRequest now a co ch) "timestamp" = some (.str now)) ∧
    (∀ s m e d,
       bodyProp (createTwitchAuthResponse now s m e d) "timestamp" = some (.str now)) ∧
    (∀ a, bodyProp (createTwitchAuthStateResponse now a) "timestamp" = some (.str now)) ∧
    (∀ id un dn text us,
       dataProp (chatToggleEvent (chatMessageObj now id un dn text us)) "timestamp" =
         some (.date now) ∧
       dataProp (chatToggleWireValue now id un dn text us) "timestamp" =
         some (.str now)) := by
  refine ⟨fun u => rfl, fun u => rfl, fun m => rfl, ?_, ?_, fun s => rfl, rfl,
          ?_, ?_, ?_, ?_, ?_, ?_, fun a => rfl, ?_⟩
  · intro m ob; cases ob <;> rfl
  · intro m ev om; cases ev <;> cases om <;> rfl
  · intro a en un re me; cases en <;> cases un <;> cases re <;> cases me <;> rfl
  · intro s c m e; cases m <;> cases e <;> rfl
  · intro s c m e; cases m <;> cases e <;> rfl
  · intro s c m e; cases m <;> cases e <;> rfl
  · intro a co ch; cases co <;> cases ch <;> rfl
  · intro s m e d; cases m <;> cases e <;> cases d <;> rfl
  · intro id un dn text us; exact ⟨rfl, rfl⟩

/- ===== C7 ===== -/

/-- C7: for every well-formed ping request (`eventType` `"ping"`, body
`B`), dispatch through the registered handlers returns the
`pong-response` envelope built by `createPongResponse('pong',
message.eventBody)`, whose `eventType` is `"pong-response"` and whose
`eventBody.originalBody` is exactly `B` (embedded unchanged, hence
deep-equal). -/
theorem c7_ping_yields_pong_with_original_body
    (now raw : String) (obs : OBSModel) (tb ab : Js → Except JsErr Js) (B : Js) :
    processRawMessage now (registeredHandlers now obs tb ab) raw
      (some (.obj [("eventType", .str "ping"), ("eventBody", B)])) =
      .sync (createPongResponse now "pong" (some B)) ∧
    getProp (createPongResponse now "pong" (some B)) "eventType" =
      .ok (some (.str "pong-response")) ∧
    bodyProp (createPongResponse now "pong" (some B)) "originalBody" = some B := by
  exact ⟨rfl, rfl, rfl⟩

/- ===== C8 ===== -/

/-- C8: any synchronous throw during dispatch of a parsed message — a
throwing property access, a throwing `canHandle`, or a non-async
handler's `handle` throwing — is caught by the same try/catch that
guards `JSON.parse`, so the client receives the `Invalid JSON format`
error envelope echoing the raw text; whereas when the matched handler is
async and its promise rejects, the registry passes the rejected promise
through uncaught and the connection loop's await turns it into an
escaped error. -/
theorem c8_sync_throws_caught_async_rejections_not :
    (∀ (now raw : String) (hs : List Handler) (msg : Js) (e : JsErr),
       processMessage now hs msg = .error e →
       processRawMessage now hs raw (some msg) =
         .sync (createErrorResponse now "Invalid JSON format" none (some (.str raw)))) ∧
    (∀ (now raw : String) (hs : List Handler) (msg : Js) (e : JsErr),
       processMessage now hs msg = .ok (.rejected e) →
       processRawMessage now hs raw (some msg) = .rejected e ∧
       connectionDispatch now hs raw (some msg) = .error e) := by
  constructor
  · intro now raw hs msg e hthrow
    simp [processRawMessage, hthrow]
  · intro now raw hs msg e hreject
    constructor
    · simp [processRawMessage, hreject]
    · simp [connectionDispatch, processRawMessage, hreject, awaitAsync]

/-- A handler whose `canHandle` itself throws synchronously (an abstract
buggy predicate, used to witness the catch-all behavior). -/
def throwingPredicateHandler : Handler where
  canHandle := fun _ => .error (.typeError "boom")
  handle := fun _ => .ok (.sync .null)
  getEventType := "boom"

/-- Witness for C8: a registry whose first `canHandle` throws turns a
parsed `{}` frame into the `Invalid JSON format` envelope; and the
unreachable-OBS toggle-stream dispatch rejects through to the
connection loop. -/
theorem c8_sync_throws_caught_async_rejections_not_witness :
    processMessage sampleNow [throwingPredicateHandler] (.obj []) =
      .error (.typeError "boom") ∧
    processRawMessage sampleNow [throwingPredicateHandler] "\x7b\x7d" (some (.obj [])) =
      .sync (createErrorResponse sampleNow "Invalid JSON format" none
        (some (.str "\x7b\x7d"))) ∧
    processMessage sampleNow
      (registeredHandlers sampleNow obsUnreachable trivialBody trivialBody)
      toggleParsed = .ok (.rejected (.error "ECONNREFUSED")) ∧
    connectionDispatch sampleNow
      (registeredHandlers sampleNow obsUnreachable trivialBody trivialBody)
      toggleRaw (some toggleParsed) = .error (.error "ECONNREFUSED") :=
  ⟨rfl,
   c8_sync_throws_caught_async_rejections_not.1 sampleNow "\x7b\x7d"
     [throwingPredicateHandler] (.obj []) (.typeError "boom") rfl,
   rfl,
   (c8_sync_throws_caught_async_rejections_not.2 sampleNow toggleRaw
     (registeredHandlers sampleNow obsUnreachable trivialBody trivialBody)
     toggleParsed (.error "ECONNREFUSED") rfl).2⟩

/- ===== C9 ===== -/

/-- A connected `TwitchManager` with chat enabled and all six callbacks
set. -/
def twConnected : TwitchMgr :=
  ⟨true, true, some 1, some 2, some 3, some 4, some 5, some 6, "chan"⟩

/-- C9 counterexample: on a connected manager, `disconnect()` always
completes (the catch swallows the error), but when the underlying
`client.disconnect()` call throws, none of the state resets run — after
completion `isConnected` is still true (and chat and all callbacks are
untouched), contradicting the claim as stated. -/
theorem c9_disconnect_swallowed_throw_keeps_state :
    twConnected.isConnected = true ∧
    twitchDisconnect true twConnected = twConnected ∧
    (twitchDisconnect true twConnected).isConnected = true :=
  ⟨rfl, rfl, rfl⟩

/-- C9 (amended): after `disconnect()` completes on a connected manager
*and the underlying `client.disconnect()` call did not throw*,
`isConnected` and `isChatEnabled` are both false and all six event
callbacks are `null` (so in particular the chat-message guard no longer
fires any callback); when `client.disconnect()` throws, the catch only
logs and the state is left entirely unchanged; and calling
`disconnect()` when not connected changes nothing. -/
theorem c9_disconnect_resets_when_client_succeeds (s : TwitchMgr) :
    (s.isConnected = true →
       (twitchDisconnect false s).isConnected = false ∧
       (twitchDisconnect false s).isChatEnabled = false ∧
       (twitchDisconnect false s).chatCallback = none ∧
       (twitchDisconnect false s).subscriptionCallback = none ∧
       (twitchDisconnect false s).bitsCallback = none ∧
       (twitchDisconnect false s).followCallback = none ∧
       (twitchDisconnect false s).raidCallback = none ∧
       (twitchDisconnect false s).hostCallback = none ∧
       chatCallbackFires (twitchDisconnect false s) = false) ∧
    (s.isConnected = true → twitchDisconnect true s = s) ∧
    (s.isConnected = false → ∀ b, twitchDisconnect b s = s) := by
  refine ⟨?_, ?_, ?_⟩
  · intro hc
    simp [twitchDisconnect, hc, chatCallbackFires]
  · intro hc
    simp [twitchDisconnect, hc]
  · intro hc b
    simp [twitchDisconnect, hc]

/-- Witness for C9's amended theorem: the concrete connected manager is
fully reset by a non-throwing disconnect, and a fresh disconnected
manager is untouched. -/
theorem c9_disconnect_resets_when_client_succeeds_witness :
    twConnected.isConnected = true ∧
    (twitchDisconnect false twConnected).isConnected = false ∧
    (twitchDisconnect false twConnected).chatCallback = none ∧
    chatCallbackFires (twitchDisconnect false twConnected) = false ∧
    (⟨false, false, none, none, none, none, none, none, "c"⟩ : TwitchMgr).isConnected = false ∧
    twitchDisconnect true ⟨false, false, none, none, none, none, none, none, "c"⟩ =
      ⟨false, false, none, none, none, none, none, none, "c"⟩ := by
  have h1 := (c9_disconnect_resets_when_client_succeeds twConnected).1 rfl
  have h2 := (c9_disconnect_resets_when_client_succeeds
    ⟨false, false, none, none, none, none, none, none, "c"⟩).2.2 rfl true
  exact ⟨rfl, h1.1, h1.2.2.1, h1.2.2.2.2.2.2.2.2, rfl, h2⟩

/- ===== C10 ===== -/

/-- C10: `getRegisteredHandlers()` allocates a fresh array (a reference
distinct from the registry's internal one) holding a copy of the
handler list, so replacing the returned array's contents with anything —
elements added, removed or reordered — leaves the registry's own list,
and therefore the outcome of every subsequent dispatch through the
registry, unchanged. -/
theorem c10_returned_copy_mutation_does_not_affect_registry
    (h : ArrayHeap Handler) (registry : Nat) (mutated : List Handler)
    (hreg : registry < h.arrays.length) :
    (getRegisteredHandlers h registry).2 ≠ registry ∧
    readArray (getRegisteredHandlers h registry).1
      (getRegisteredHandlers h registry).2 = readArray h registry ∧
    readArray (writeArray (getRegisteredHandlers h registry).1
      (getRegisteredHandlers h registry).2 mutated) registry = readArray h registry ∧
    (∀ (now raw : String) (parsed : Option Js),
       connectionDispatch now
         (readArray (writeArray (getRegisteredHandlers h registry).1
           (getRegisteredHandlers h registry).2 mutated) registry) raw parsed =
       connectionDispatch now (readArray h registry) raw parsed) := by
  have hne : h.arrays.length ≠ registry := by omega
  have hread : readArray (writeArray (getRegisteredHandlers h registry).1
      (getRegisteredHandlers h registry).2 mutated) registry = readArray h registry := by
    simp only [getRegisteredHandlers, writeArray, readArray]
    rw [List.get?_set_ne mutated _ hne]
    rw [List.get?_append hreg]
  refine ⟨fun hh => hne hh, ?_, hread, fun now raw parsed => by rw [hread]⟩
  simp only [getRegisteredHandlers, readArray]
  rw [List.get?_append_right (by omega)]
  simp

/-- Witness for C10: a one-registry heap holding the ping handler; the
copy is reference 1, and clearing it leaves dispatch through the
registry intact. -/
theorem c10_returned_copy_mutation_does_not_affect_registry_witness :
    0 < (ArrayHeap.mk [[pingHandler sampleNow]]).arrays.length ∧
    (getRegisteredHandlers (ArrayHeap.mk [[pingHandler sampleNow]]) 0).2 ≠ 0 ∧
    readArray (writeArray
      (getRegisteredHandlers (ArrayHeap.mk [[pingHandler sampleNow]]) 0).1
      (getRegisteredHandlers (ArrayHeap.mk [[pingHandler sampleNow]]) 0).2 [])
      0 = readArray (ArrayHeap.mk [[pingHandler sampleNow]]) 0 := by
  have hmain := c10_returned_copy_mutation_does_not_affect_registry
    (ArrayHeap.mk [[pingHandler sampleNow]]) 0 [] (by simp)
  exact ⟨by simp, hmain.1, hmain.2.2.1⟩
